import Mathlib

/-!
Shallow embedding of the in-memory graph store of the
Supply_Chain_Transparency_App_for_Luxury_Fashion repository
(`graph_database.py` and the provenance tracer of `graph_rag_engine.py`),
together with theorems settling the specification claims about it.

Python dictionaries are modelled as insertion-ordered association lists:
assigning to an existing key updates the value in place (keeping the key's
position), assigning a fresh key appends.  Scalar property values are
strings or integers, matching the data the store holds.
-/

namespace SupplyChain

/-- A scalar property value: a Python string or number. -/
inductive PVal where
  | s (v : String)
  | i (v : Int)
deriving DecidableEq, Repr

/-- A Python property dictionary: string keys, scalar values, insertion order. -/
abbrev PropMap := List (String × PVal)

/-- Rendering of a scalar inside a Python f-string (`str` of the value). -/
def pvalStr : PVal → String
  | .s v => v
  | .i n => toString n

/-- Python truthiness of a scalar: empty string and zero are falsy. -/
def pvalTruthy : PVal → Bool
  | .s v => v ≠ ""
  | .i n => n ≠ 0

/-- Dictionary read (`d.get(k)` / `d[k]`): first entry with the key. -/
def pyGet {κ α : Type} [DecidableEq κ] (m : List (κ × α)) (k : κ) : Option α :=
  match m with
  | [] => none
  | (k', v) :: rest => if k' = k then some v else pyGet rest k

/-- Dictionary write (`d[k] = v`): update in place, else append. -/
def pySet {κ α : Type} [DecidableEq κ] (m : List (κ × α)) (k : κ) (v : α) :
    List (κ × α) :=
  match m with
  | [] => [(k, v)]
  | (k', v') :: rest => if k' = k then (k, v) :: rest else (k', v') :: pySet rest k v

/-- The keys of a dictionary, in order. -/
def pyKeys {κ α : Type} (m : List (κ × α)) : List κ := m.map Prod.fst

/-- Dictionary merge `\x7b**a, **b\x7d`: start from `a`, assign each entry of `b`. -/
def pyMerge {κ α : Type} [DecidableEq κ] (a b : List (κ × α)) : List (κ × α) :=
  b.foldl (fun acc kv => pySet acc kv.1 kv.2) a

/-- A stored node: `\x7blabel: str, properties: dict\x7d` (graph_database.py line 24). -/
structure Node where
  label : String
  properties : PropMap
deriving DecidableEq, Repr

/-- A stored relationship record: `\x7bfrom, to, type, properties\x7d`
(graph_database.py line 35).  The Python key `from` is spelled `fromId`
because `from` is a Lean keyword; likewise `to` is `toId`. -/
structure Relationship where
  fromId : PVal
  toId : PVal
  type : String
  properties : PropMap
deriving DecidableEq, Repr

/-- The store: `self.nodes` (a dict keyed by node id), `self.relationships`
(a list), and `self.node_counter`. -/
structure GraphDatabase where
  nodes : List (PVal × Node)
  relationships : List Relationship
  node_counter : Nat
deriving DecidableEq, Repr

/-- The fresh store built by `GraphDatabase.__init__`. -/
def emptyDB : GraphDatabase := ⟨[], [], 0⟩

/-- `GraphDatabase.create_node` (lines 19-28): the node id is the explicit
`id` property when present, otherwise the synthesized string
`label_counter`; the counter is always incremented; the node is inserted
at that id, overwriting any previous entry. -/
def create_node (db : GraphDatabase) (label : String) (properties : PropMap) :
    PVal × GraphDatabase :=
  let node_id := (pyGet properties "id").getD (.s (label ++ "_" ++ toString db.node_counter))
  (node_id,
   { db with node_counter := db.node_counter + 1,
             nodes := pySet db.nodes node_id ⟨label, properties⟩ })

/-- Normalization `properties or \x7b\x7d` of the optional argument of
`create_relationship`: `None` and the (falsy) empty dict both become the
empty dict. -/
def relProps : Option PropMap → PropMap
  | none => []
  | some ps => if ps.isEmpty then [] else ps

/-- `GraphDatabase.create_relationship` (lines 30-40).  The `raise ValueError`
is modelled as returning the store unchanged together with the error
message; success appends exactly one relationship record and reports no
error. -/
def create_relationship (db : GraphDatabase) (from_id to_id : PVal)
    (rel_type : String) (properties : Option PropMap) :
    GraphDatabase × Option String :=
  if (pyGet db.nodes from_id).isNone ∨ (pyGet db.nodes to_id).isNone then
    (db, some ("Node not found: " ++ pvalStr from_id ++ " or " ++ pvalStr to_id))
  else
    ({ db with relationships :=
        db.relationships ++ [⟨from_id, to_id, rel_type, relProps properties⟩] }, none)

/-- The flattened record `\x7b'id': nid, **properties\x7d` used by queries and
`get_all_nodes`. -/
def idRecord (nid : PVal) (props : PropMap) : PropMap :=
  pyMerge [("id", nid)] props

/-- The unfiltered branch of `get_all_nodes`: records
`\x7b'id': nid, 'label': node['label'], **properties\x7d` for every node. -/
def allNodesRecords (db : GraphDatabase) : List PropMap :=
  db.nodes.map (fun p => pyMerge [("id", p.1), ("label", PVal.s p.2.label)] p.2.properties)

/-- `GraphDatabase.get_all_nodes` (lines 141-152).  `if label:` is Python
truthiness, so both `None` and the empty string select the unfiltered
branch, whose records additionally carry the node's label. -/
def get_all_nodes (db : GraphDatabase) (label : Option String) : List PropMap :=
  match label with
  | some l =>
      if l = "" then allNodesRecords db
      else (db.nodes.filter (fun p => p.2.label = l)).map
        (fun p => idRecord p.1 p.2.properties)
  | none => allNodesRecords db

/-! ### The Cypher-like query engine (`execute_cypher`, lines 42-139)

The two regular expressions of `_execute_match` are modelled as explicit
scanners over character lists:
`\((\w+):(\w+)(?:\s*\{([^}]+)\})?\)` for node patterns and
`-\[:(\w+)\]->` for relationship types, with `re.findall` semantics
(left-to-right, non-overlapping).  `\w` and `\s` are modelled at their
ASCII meaning, as is `str.upper`. -/

/-- A `\w` character: letter, digit or underscore (ASCII). -/
def isWordChar (c : Char) : Bool := c.isAlphanum || c = '_'

/-- A `\s` character (also the set stripped by `str.strip`). -/
def isPySpace (c : Char) : Bool :=
  c = ' ' || c = '\t' || c = '\n' || c = '\r' || c = '\x0b' || c = '\x0c'

/-- `str.strip()`: drop whitespace from both ends. -/
def pyStrip (l : List Char) : List Char :=
  ((l.dropWhile isPySpace).reverse.dropWhile isPySpace).reverse

/-- `str.upper()` (ASCII). -/
def pyUpper (l : List Char) : List Char := l.map Char.toUpper

/-- Drop every occurrence of the character `c` from both ends
(Python `str.strip('c')`). -/
def stripChar (c : Char) (l : List Char) : List Char :=
  ((l.dropWhile (· = c)).reverse.dropWhile (· = c)).reverse

/-- The optional group `(?:\s*\{([^}]+)\})?` of the node pattern: skip
spaces, then an open brace, a nonempty run of non-brace characters, and a
closing brace.  Returns the captured filter text and the rest. -/
def tryBraces (l : List Char) : Option (List Char × List Char) :=
  match (l.dropWhile isPySpace) with
  | '\x7b' :: r =>
      let content := r.takeWhile (· ≠ '\x7d')
      match content, r.dropWhile (· ≠ '\x7d') with
      | _ :: _, '\x7d' :: rest => some (content, rest)
      | _, _ => none
  | _ => none

/-- Attempt of the node pattern just after its opening parenthesis:
`(\w+):(\w+)` then the optional brace group then `)`.  When the brace
group matches but no `)` follows, the regex engine backtracks to the
empty alternative of the optional group. -/
def matchNodeAfterParen (l : List Char) :
    Option ((String × String × String) × List Char) :=
  let w1 := l.takeWhile isWordChar
  match w1, l.dropWhile isWordChar with
  | _ :: _, ':' :: r2 =>
      let w2 := r2.takeWhile isWordChar
      match w2, r2.dropWhile isWordChar with
      | _ :: _, r3 =>
          let noBraces : Option ((String × String × String) × List Char) :=
            match r3 with
            | ')' :: r5 => some ((⟨w1⟩, ⟨w2⟩, ""), r5)
            | _ => none
          match tryBraces r3 with
          | some (props, r4) =>
              match r4 with
              | ')' :: r5 => some ((⟨w1⟩, ⟨w2⟩, ⟨props⟩), r5)
              | _ => noBraces
          | none => noBraces
      | _, _ => none
  | _, _ => none

/-- `re.findall` of the node pattern.  The fuel argument (instantiated with
the input length, which every step strictly decreases) only makes the
recursion structural. -/
def findNodesAux : Nat → List Char → List (String × String × String)
  | 0, _ => []
  | _ + 1, [] => []
  | fuel + 1, c :: rest =>
      if c = '(' then
        match matchNodeAfterParen rest with
        | some (g, r) => g :: findNodesAux fuel r
        | none => findNodesAux fuel rest
      else findNodesAux fuel rest

/-- All node-pattern matches of the query, in order
(`re.findall(node_pattern, query)`). -/
def findNodes (l : List Char) : List (String × String × String) :=
  findNodesAux l.length l

/-- Attempt of the relationship pattern `-\[:(\w+)\]->` at the head. -/
def matchRelHere (l : List Char) : Option (String × List Char) :=
  match l with
  | '-' :: '[' :: ':' :: rest =>
      let w := rest.takeWhile isWordChar
      match w, rest.dropWhile isWordChar with
      | _ :: _, ']' :: '-' :: '>' :: r => some (⟨w⟩, r)
      | _, _ => none
  | _ => none

/-- `re.findall` of the relationship pattern (same fuel device). -/
def findRelsAux : Nat → List Char → List String
  | 0, _ => []
  | _ + 1, [] => []
  | fuel + 1, c :: rest =>
      match matchRelHere (c :: rest) with
      | some (g, r) => g :: findRelsAux fuel r
      | none => findRelsAux fuel rest

/-- All relationship-type matches of the query, in order. -/
def findRels (l : List Char) : List String :=
  findRelsAux l.length l

/-- `GraphDatabase._parse_properties` (lines 129-139): split the filter text
on commas, keep the pieces containing a colon, split each at the first
colon, strip whitespace and then quote characters from the value. -/
def parse_properties (s : List Char) : List (String × String) :=
  (s.splitOn ',').foldl
    (fun props pair =>
      if pair.contains ':' then
        let key := pair.takeWhile (· ≠ ':')
        let value := (pair.dropWhile (· ≠ ':')).tail
        pySet props ⟨pyStrip key⟩ ⟨stripChar '\'' (stripChar '"' (pyStrip value))⟩
      else props)
    []

/-- A value bound to a query variable in a result row: a flattened node
record, or the bare relationship-type string. -/
inductive RVal where
  | dict (m : PropMap)
  | s (v : String)
deriving DecidableEq, Repr

/-- One result row: a Python dict from variable names to bound values. -/
abbrev Row := List (String × RVal)

/-- The single-node branch of `_execute_match` (lines 78-96): collect the
nodes with the pattern's label, then, when filter text is present
(`if props:`), keep the rows whose record equals every parsed filter
value at the filter's key. -/
def matchSingle (db : GraphDatabase) (var label props : String) : List Row :=
  let matching := (db.nodes.filter (fun p => p.2.label = label)).map
    (fun p => [(var, RVal.dict (idRecord p.1 p.2.properties))])
  if props = "" then matching
  else
    matching.filter (fun row =>
      (parse_properties props.data).all (fun kv =>
        match pyGet row var with
        | some (RVal.dict m) => pyGet m kv.1 == some (PVal.s kv.2)
        | _ => false))

/-- The row a relationship contributes to a two-node query, if any
(lines 105-120): the type must match and both endpoints must resolve to
nodes carrying the two pattern labels. -/
def relRowOf (db : GraphDatabase) (var1 label1 var2 label2 rel_type : String)
    (rel : Relationship) : Option Row :=
  if rel.type = rel_type then
    match pyGet db.nodes rel.fromId, pyGet db.nodes rel.toId with
    | some from_node, some to_node =>
        if from_node.label = label1 ∧ to_node.label = label2 then
          some (pySet (pySet (pySet [] var1
                  (RVal.dict (idRecord rel.fromId from_node.properties)))
                var2 (RVal.dict (idRecord rel.toId to_node.properties)))
              "relationship" (RVal.s rel.type))
        else none
    | _, _ => none
  else none

/-- The relationship branch of `_execute_match` (lines 99-120): a scan of
the relationship list appending one row per surviving relationship. -/
def matchRel (db : GraphDatabase) (var1 label1 var2 label2 rel_type : String) :
    List Row :=
  db.relationships.foldl
    (fun results rel =>
      results ++ (relRowOf db var1 label1 var2 label2 rel_type rel).toList)
    []

/-- The dispatch of `_execute_match` on the extracted pattern lists
(lines 74-122): no node pattern gives no rows; exactly one node pattern
and no relationship pattern runs the single-node branch; at least two
node patterns and a relationship pattern runs the relationship branch on
the first two node patterns and the first relationship type; anything
else gives no rows. -/
def dispatch_match (db : GraphDatabase)
    (nodes_match : List (String × String × String)) (rels_match : List String) :
    List Row :=
  match nodes_match, rels_match with
  | [], _ => []
  | [(var, label, props)], [] => matchSingle db var label props
  | (v1, l1, _) :: (v2, l2, _) :: _, rt :: _ => matchRel db v1 l1 v2 l2 rt
  | _, _ => []

/-- `GraphDatabase._execute_match` (lines 60-122). -/
def execute_match (db : GraphDatabase) (q : List Char) : List Row :=
  dispatch_match db (findNodes q) (findRels q)

/-- `GraphDatabase.execute_cypher` (lines 42-58): strip the query, then
dispatch on its uppercased prefix; unrecognized text yields the empty
list.  The function is total: no input raises. -/
def execute_cypher (db : GraphDatabase) (query : String) : List Row :=
  let q := pyStrip query.data
  let u := pyUpper q
  if "MATCH".data.isPrefixOf u then execute_match db q
  else if "CREATE".data.isPrefixOf u then [[("result", RVal.s "Created")]]
  else if "RETURN".data.isPrefixOf u then [[("result", RVal.s "OK")]]
  else []

/-- The first supported query shape: a MATCH query in which the scanners
find exactly one node pattern and no relationship pattern. -/
def singleNodeShape (query : String) : Bool :=
  "MATCH".data.isPrefixOf (pyUpper (pyStrip query.data)) &&
    (findNodes (pyStrip query.data)).length == 1 &&
    (findRels (pyStrip query.data)).isEmpty

/-- The second supported query shape: a MATCH query in which the scanners
find at least two node patterns and a relationship pattern. -/
def relShape (query : String) : Bool :=
  "MATCH".data.isPrefixOf (pyUpper (pyStrip query.data)) &&
    decide (2 ≤ (findNodes (pyStrip query.data)).length) &&
    !(findRels (pyStrip query.data)).isEmpty

/-! ### The provenance tracer (`GraphRAGEngine.trace_supply_chain`,
graph_rag_engine.py lines 321-392) -/

/-- The certifications gathered for a factory id: the inner loop of the
factory scan (lines 346-351), in relationship order. -/
def certsOf (db : GraphDatabase) (factory_id : PVal) : List PropMap :=
  db.relationships.filterMap (fun cert_rel =>
    if cert_rel.fromId = factory_id ∧ cert_rel.type = "HAS_CERTIFICATION" then
      (pyGet db.nodes cert_rel.toId).map Node.properties
    else none)

/-- The factory scan (lines 340-351): one pass over the relationship list;
every MANUFACTURES relationship targeting the product whose source node
exists overwrites the factory and appends that factory's certifications. -/
def factoryStep (db : GraphDatabase) (product_id : PVal) :
    Option PropMap × List PropMap :=
  db.relationships.foldl
    (fun st rel =>
      if rel.toId = product_id ∧ rel.type = "MANUFACTURES" then
        match pyGet db.nodes rel.fromId with
        | some factory_node =>
            (some factory_node.properties, st.2 ++ certsOf db rel.fromId)
        | none => st
      else st)
    (none, [])

/-- The suppliers of one material (lines 369-375): sources of PROVIDES
relationships targeting the material, in relationship order. -/
def suppliersOfMaterial (db : GraphDatabase) (material_id : PVal) : List PropMap :=
  db.relationships.filterMap (fun sup_rel =>
    if sup_rel.toId = material_id ∧ sup_rel.type = "PROVIDES" then
      (pyGet db.nodes sup_rel.fromId).map Node.properties
    else none)

/-- One entry of the trace's materials list: the material's property dict
into which the key `suppliers` is assigned (line 377).  The injected key
is modelled as a separate field. -/
structure MaterialEntry where
  properties : PropMap
  suppliers : List PropMap
deriving DecidableEq, Repr

/-- The material scan for a factory id (lines 362-381): sources of
SUPPLIED_TO relationships targeting the factory, each with its supplier
list. -/
def materialsStep (db : GraphDatabase) (factory_id : PVal) : List MaterialEntry :=
  db.relationships.filterMap (fun rel =>
    if rel.toId = factory_id ∧ rel.type = "SUPPLIED_TO" then
      (pyGet db.nodes rel.fromId).map (fun material_node =>
        ⟨material_node.properties, suppliersOfMaterial db rel.fromId⟩)
    else none)

/-- The first MANUFACTURES relationship targeting the product (the loop
with `break` at lines 356-359). -/
def firstManufactures (db : GraphDatabase) (product_id : PVal) :
    Option Relationship :=
  db.relationships.find? (fun rel =>
    rel.toId == product_id && rel.type == "MANUFACTURES")

/-- The materials block (lines 354-381): runs only when `trace['factory']`
is truthy (a present, nonempty property dict), resolves the factory id
from the *first* MANUFACTURES relationship, and guards again on the
truthiness of that id (`if factory_id:`). -/
def materialsOf (db : GraphDatabase) (product_id : PVal)
    (factory : Option PropMap) : List MaterialEntry :=
  if (match factory with | some ps => !ps.isEmpty | none => false) then
    match firstManufactures db product_id with
    | some mrel => if pvalTruthy mrel.fromId then materialsStep db mrel.fromId else []
    | none => []
  else []

/-- The supplier deduplication loop (lines 384-391) with its `seen` set:
a supplier is kept when its `id` property (possibly absent, i.e. `None`)
has not been seen yet. -/
def dedupSuppliersAux : List (Option PVal) → List PropMap → List PropMap
  | _, [] => []
  | seen, s :: rest =>
      let sid := pyGet s "id"
      if sid ∈ seen then dedupSuppliersAux seen rest
      else s :: dedupSuppliersAux (sid :: seen) rest

/-- Deduplication of the aggregate supplier list, first occurrence kept. -/
def dedupSuppliers (l : List PropMap) : List PropMap := dedupSuppliersAux [] l

/-- The trace record built at lines 332-338: a Python dict with the five
fixed keys `product`, `factory`, `materials`, `suppliers`,
`certifications`. -/
structure Trace where
  product : PropMap
  factory : Option PropMap
  materials : List MaterialEntry
  suppliers : List PropMap
  certifications : List PropMap
deriving DecidableEq, Repr

/-- The value returned by `trace_supply_chain`: either the one-key error
dict of line 330 or a trace record. -/
inductive TraceResult where
  | error (msg : String)
  | trace (t : Trace)
deriving DecidableEq, Repr

/-- The keys of the Python dict a `TraceResult` denotes, in insertion
order: the literal at line 330 has the single key `error`; the literal at
lines 332-338 has the five trace keys. -/
def pyKeysOfResult : TraceResult → List String
  | .error _ => ["error"]
  | .trace _ => ["product", "factory", "materials", "suppliers", "certifications"]

/-- `GraphRAGEngine.trace_supply_chain` (lines 321-392). -/
def trace_supply_chain (db : GraphDatabase) (product_id : PVal) : TraceResult :=
  match pyGet db.nodes product_id with
  | none => .error ("Product " ++ pvalStr product_id ++ " not found")
  | some product_node =>
      let fc := factoryStep db product_id
      let mats := materialsOf db product_id fc.1
      .trace ⟨product_node.properties, fc.1, mats,
              dedupSuppliers (mats.flatMap MaterialEntry.suppliers), fc.2⟩

/-! ### JSON snapshot (`export_to_json` / `import_from_json`, lines 178-192)

The file round trip is modelled at the JSON-value level: `json.dump`
followed by `json.load` reproduces the dumped value for string/number
data, except that `json.dump` coerces non-string dictionary keys to
strings — that coercion belongs to the dump and is performed by
`jsonKey` inside the export. -/

/-- A JSON value as read back by `json.load` restricted to the shapes the
store produces. -/
inductive Json where
  | str (s : String)
  | num (n : Int)
  | arr (xs : List Json)
  | obj (kvs : List (String × Json))

/-- A scalar as a JSON value. -/
def jsonOfPVal : PVal → Json
  | .s v => .str v
  | .i n => .num n

/-- The string `json.dump` writes for a dictionary key: strings verbatim,
numbers in decimal. -/
def jsonKey : PVal → String
  | .s v => v
  | .i n => toString n

/-- A property dict as a JSON object. -/
def jsonOfProps (m : PropMap) : Json :=
  .obj (m.map (fun kv => (kv.1, jsonOfPVal kv.2)))

/-- A stored node as the JSON object `\x7blabel, properties\x7d`. -/
def jsonOfNode (n : Node) : Json :=
  .obj [("label", .str n.label), ("properties", jsonOfProps n.properties)]

/-- A relationship record as the JSON object
`\x7bfrom, to, type, properties\x7d`. -/
def jsonOfRel (r : Relationship) : Json :=
  .obj [("from", jsonOfPVal r.fromId), ("to", jsonOfPVal r.toId),
        ("type", .str r.type), ("properties", jsonOfProps r.properties)]

/-- `GraphDatabase.export_to_json` (lines 178-185): the dumped value
`\x7b'nodes': self.nodes, 'relationships': self.relationships\x7d`. -/
def export_to_json (db : GraphDatabase) : Json :=
  .obj [("nodes", .obj (db.nodes.map (fun p => (jsonKey p.1, jsonOfNode p.2)))),
        ("relationships", .arr (db.relationships.map jsonOfRel))]

/-- Map a fallible function over a list, failing when any element fails. -/
def mapMOpt {α β : Type} (f : α → Option β) : List α → Option (List β)
  | [] => some []
  | a :: as =>
      match f a, mapMOpt f as with
      | some b, some bs => some (b :: bs)
      | _, _ => none

/-- A JSON scalar back as a stored scalar. -/
def pvalOfJson : Json → Option PVal
  | .str v => some (.s v)
  | .num n => some (.i n)
  | _ => none

/-- A JSON object back as a property dict. -/
def propsOfJson : Json → Option PropMap
  | .obj kvs => mapMOpt (fun kv => (pvalOfJson kv.2).map (fun v => (kv.1, v))) kvs
  | _ => none

/-- A JSON object back as a stored node. -/
def nodeOfJson (j : Json) : Option Node :=
  match j with
  | .obj kvs =>
      match pyGet kvs "label", (pyGet kvs "properties").bind propsOfJson with
      | some (.str l), some ps => some ⟨l, ps⟩
      | _, _ => none
  | _ => none

/-- A JSON object back as a relationship record. -/
def relOfJson (j : Json) : Option Relationship :=
  match j with
  | .obj kvs =>
      match (pyGet kvs "from").bind pvalOfJson, (pyGet kvs "to").bind pvalOfJson,
            pyGet kvs "type", (pyGet kvs "properties").bind propsOfJson with
      | some f, some t, some (.str ty), some ps => some ⟨f, t, ty, ps⟩
      | _, _, _, _ => none
  | _ => none

/-- `GraphDatabase.import_from_json` (lines 187-192): read the parsed
value's `nodes` and `relationships` entries (with `dict.get` defaults)
and assign them to the store; the keys of the loaded node map are the
strings found in the file.  `none` stands for a load whose shape the
store's record types cannot hold. -/
def import_from_json (db : GraphDatabase) (data : Json) : Option GraphDatabase :=
  match data with
  | .obj kvs =>
      match (pyGet kvs "nodes").getD (.obj []),
            (pyGet kvs "relationships").getD (.arr []) with
      | .obj nkvs, .arr rjs =>
          match mapMOpt (fun kv => (nodeOfJson kv.2).map (fun n => (PVal.s kv.1, n))) nkvs,
                mapMOpt relOfJson rjs with
          | some ns, some rs => some { db with nodes := ns, relationships := rs }
          | _, _ => none
      | _, _ => none
  | _ => none

/-! ### Specification-side definitions -/

/-- Modelled from the spec's words for the supplier aggregate: keep only
the first occurrence of each supplier id, dropping every later entry
whose `id` property matches an earlier one. -/
def keepFirstById : List PropMap → List PropMap
  | [] => []
  | s :: rest =>
      s :: keepFirstById (rest.filter (fun s2 => !(pyGet s2 "id" == pyGet s "id")))
termination_by l => l.length
decreasing_by
  simp only [List.length_cons]
  exact Nat.lt_succ_of_le (List.length_filter_le _ _)

/-- The MANUFACTURES relationships targeting a product, in store order. -/
def manufRels (db : GraphDatabase) (pid : PVal) : List Relationship :=
  db.relationships.filter (fun rel => rel.toId == pid && rel.type == "MANUFACTURES")

/-- The factory the code resolves: the properties of the source of the
*last* MANUFACTURES relationship whose source resolves to a node. -/
def lastFactoryProps (db : GraphDatabase) (pid : PVal) : Option PropMap :=
  ((manufRels db pid).filterMap
    (fun rel => (pyGet db.nodes rel.fromId).map Node.properties)).getLast?

/-- The certifications the code accumulates: those of every resolvable
MANUFACTURES source, concatenated in store order. -/
def allCerts (db : GraphDatabase) (pid : PVal) : List PropMap :=
  (manufRels db pid).flatMap (fun rel =>
    if (pyGet db.nodes rel.fromId).isSome then certsOf db rel.fromId else [])

/-! ### Concrete stores used to instantiate the theorems -/

/-- A small store with two nodes and no relationships. -/
def sampleStore : GraphDatabase :=
  ⟨[(.s "A", ⟨"Thing", [("id", .s "A"), ("x", .s "1")]⟩),
    (.s "B", ⟨"Thing", [("id", .s "B")]⟩)], [], 2⟩

/-- A store in which two different factories both MANUFACTURE product P. -/
def twoFactoryStore : GraphDatabase :=
  ⟨[(.s "P", ⟨"Product", [("id", .s "P"), ("name", .s "Bag")]⟩),
    (.s "F1", ⟨"Factory", [("id", .s "F1"), ("name", .s "Factory One")]⟩),
    (.s "F2", ⟨"Factory", [("id", .s "F2"), ("name", .s "Factory Two")]⟩)],
   [⟨.s "F1", .s "P", "MANUFACTURES", []⟩,
    ⟨.s "F2", .s "P", "MANUFACTURES", []⟩], 3⟩

/-- The spec's trace fixture: one factory with two certifications and two
materials, one supplier providing both materials. -/
def traceFixtureStore : GraphDatabase :=
  ⟨[(.s "P2", ⟨"Product", [("id", .s "P2"), ("name", .s "Coat")]⟩),
    (.s "F", ⟨"Factory", [("id", .s "F"), ("name", .s "Atelier")]⟩),
    (.s "M1", ⟨"Material", [("id", .s "M1"), ("name", .s "Wool")]⟩),
    (.s "M2", ⟨"Material", [("id", .s "M2"), ("name", .s "Silk")]⟩),
    (.s "S", ⟨"Supplier", [("id", .s "S"), ("name", .s "Farm")]⟩),
    (.s "CA", ⟨"Certification", [("id", .s "CA")]⟩),
    (.s "CB", ⟨"Certification", [("id", .s "CB")]⟩)],
   [⟨.s "F", .s "P2", "MANUFACTURES", []⟩,
    ⟨.s "F", .s "CA", "HAS_CERTIFICATION", []⟩,
    ⟨.s "F", .s "CB", "HAS_CERTIFICATION", []⟩,
    ⟨.s "M1", .s "F", "SUPPLIED_TO", []⟩,
    ⟨.s "M2", .s "F", "SUPPLIED_TO", []⟩,
    ⟨.s "S", .s "M1", "PROVIDES", []⟩,
    ⟨.s "S", .s "M2", "PROVIDES", []⟩], 7⟩

/-- A store whose single node carries a numeric explicit id, as produced by
`create_node('X', \x7b'id': 5\x7d)`. -/
def numericIdStore : GraphDatabase :=
  ⟨[(.i 5, ⟨"X", [("id", .i 5)]⟩)], [], 1⟩

/-! ## Theorems -/

/-! ### Dictionary lemmas -/

theorem pyGet_eq_none_iff {κ α : Type} [DecidableEq κ] (m : List (κ × α)) (k : κ) :
    pyGet m k = none ↔ k ∉ pyKeys m := by
  induction m with
  | nil => simp [pyGet, pyKeys]
  | cons kv rest ih =>
      obtain ⟨k', v⟩ := kv
      by_cases h : k' = k
      · subst h; simp [pyGet, pyKeys]
      · simp [pyGet, pyKeys, h, ih, Ne.symm h]

theorem pyGet_pySet_self {κ α : Type} [DecidableEq κ] (m : List (κ × α)) (k : κ) (v : α) :
    pyGet (pySet m k v) k = some v := by
  induction m with
  | nil => simp [pySet, pyGet]
  | cons kv rest ih =>
      obtain ⟨k', v'⟩ := kv
      by_cases h : k' = k <;> simp [pySet, pyGet, h, ih]

theorem mem_pyKeys_pySet {κ α : Type} [DecidableEq κ]
    (m : List (κ × α)) (k k' : κ) (v : α) :
    k' ∈ pyKeys (pySet m k v) ↔ k' ∈ pyKeys m ∨ k' = k := by
  induction m with
  | nil => simp [pySet, pyKeys, eq_comm]
  | cons kv rest ih =>
      obtain ⟨k₀, v₀⟩ := kv
      by_cases h : k₀ = k <;> simp [pySet, pyKeys, h, eq_comm] at * <;> tauto

theorem mem_pyKeys_pyMerge {κ α : Type} [DecidableEq κ]
    (a b : List (κ × α)) (k : κ) :
    k ∈ pyKeys (pyMerge a b) ↔ k ∈ pyKeys a ∨ k ∈ pyKeys b := by
  induction b generalizing a with
  | nil => simp [pyMerge, pyKeys]
  | cons kv rest ih =>
      have hstep : pyMerge a (kv :: rest) = pyMerge (pySet a kv.1 kv.2) rest := rfl
      rw [hstep, ih, mem_pyKeys_pySet]
      simp [pyKeys, eq_comm]
      tauto

theorem pyKeys_nil {κ α : Type} : pyKeys ([] : List (κ × α)) = [] := rfl

theorem pyKeys_cons {κ α : Type} (kv : κ × α) (rest : List (κ × α)) :
    pyKeys (kv :: rest) = kv.1 :: pyKeys rest := rfl

theorem filter_key_eq_nil {κ α : Type} [DecidableEq κ] (m : List (κ × α)) (k : κ)
    (h : k ∉ pyKeys m) : m.filter (fun p => p.1 = k) = [] := by
  induction m with
  | nil => rfl
  | cons kv rest ih =>
      rw [pyKeys_cons, List.mem_cons, not_or] at h
      have hne : ¬(kv.1 = k) := fun hh => h.1 hh.symm
      simp [List.filter_cons, hne, ih h.2]

theorem pySet_filter_single {κ α : Type} [DecidableEq κ] (m : List (κ × α))
    (k : κ) (v : α) (hnd : (pyKeys m).Nodup) (hmem : k ∈ pyKeys m) :
    (pySet m k v).filter (fun p => p.1 = k) = [(k, v)] := by
  induction m with
  | nil => rw [pyKeys_nil] at hmem; exact absurd hmem (List.not_mem_nil k)
  | cons kv rest ih =>
      obtain ⟨k₀, v₀⟩ := kv
      rw [pyKeys_cons, List.nodup_cons] at hnd
      rw [pyKeys_cons, List.mem_cons] at hmem
      by_cases h : k₀ = k
      · subst h
        simp [pySet, List.filter_cons, filter_key_eq_nil rest k₀ hnd.1]
      · have hmem' : k ∈ pyKeys rest := by
          rcases hmem with hh | hh
          · exact absurd hh.symm h
          · exact hh
        simp [pySet, h, List.filter_cons, ih hnd.2 hmem']

theorem pyKeys_pySet_of_mem {κ α : Type} [DecidableEq κ] (m : List (κ × α))
    (k : κ) (v : α) (hmem : k ∈ pyKeys m) :
    pyKeys (pySet m k v) = pyKeys m := by
  induction m with
  | nil => rw [pyKeys_nil] at hmem; exact absurd hmem (List.not_mem_nil k)
  | cons kv rest ih =>
      obtain ⟨k₀, v₀⟩ := kv
      rw [pyKeys_cons, List.mem_cons] at hmem
      by_cases h : k₀ = k
      · subst h; simp [pySet, pyKeys_cons]
      · have hmem' : k ∈ pyKeys rest := by
          rcases hmem with hh | hh
          · exact absurd hh.symm h
          · exact hh
        simp [pySet, pyKeys_cons, h, ih hmem']

/-! ### Claim theorems: store construction -/

/-- C1: `create_relationship` with a missing endpoint reports the error and
leaves the store — in particular its relationship list — exactly as it
was; with both endpoints present it appends exactly one relationship
record `\x7bfrom, to, type, properties\x7d` and reports no error. -/
theorem C1_create_relationship_atomic
    (db : GraphDatabase) (from_id to_id : PVal) (rel_type : String)
    (properties : Option PropMap) :
    (pyGet db.nodes from_id = none ∨ pyGet db.nodes to_id = none →
      create_relationship db from_id to_id rel_type properties =
        (db, some ("Node not found: " ++ pvalStr from_id ++ " or " ++ pvalStr to_id))) ∧
    (pyGet db.nodes from_id ≠ none → pyGet db.nodes to_id ≠ none →
      create_relationship db from_id to_id rel_type properties =
        ({ db with relationships := db.relationships ++
            [⟨from_id, to_id, rel_type, relProps properties⟩] }, none)) := by
  constructor
  · intro h
    rcases h with h | h <;> simp [create_relationship, h]
  · intro h1 h2
    simp [create_relationship, Option.isNone_iff_eq_none, h1, h2]

/-- Witness for C1 at a concrete store: `Z` is absent, so linking `A` to
`Z` fails and changes nothing; linking `A` to `B` appends one record. -/
theorem C1_witness :
    (pyGet sampleStore.nodes (PVal.s "A") = none ∨
      pyGet sampleStore.nodes (PVal.s "Z") = none) ∧
    create_relationship sampleStore (PVal.s "A") (PVal.s "Z") "KNOWS" none =
      (sampleStore, some ("Node not found: " ++ pvalStr (PVal.s "A") ++ " or " ++
        pvalStr (PVal.s "Z"))) ∧
    create_relationship sampleStore (PVal.s "A") (PVal.s "B") "KNOWS" none =
      ({ sampleStore with relationships := sampleStore.relationships ++
          [⟨PVal.s "A", PVal.s "B", "KNOWS", relProps none⟩] }, none) :=
  ⟨Or.inr (by decide),
   (C1_create_relationship_atomic sampleStore (PVal.s "A") (PVal.s "Z") "KNOWS"
      none).1 (Or.inr (by decide)),
   (C1_create_relationship_atomic sampleStore (PVal.s "A") (PVal.s "B") "KNOWS"
      none).2 (by decide) (by decide)⟩

/-- C6: `create_node` with an explicit id equal to an existing node's id
overwrites that node without failing: the returned id is that id, the
store afterwards holds exactly one entry at it, and that entry carries
exactly the new label and the new properties. -/
theorem C6_create_node_overwrite
    (db : GraphDatabase) (label : String) (properties : PropMap) (v : PVal)
    (hid : pyGet properties "id" = some v)
    (hmem : v ∈ pyKeys db.nodes)
    (hnd : (pyKeys db.nodes).Nodup) :
    (create_node db label properties).1 = v ∧
    pyGet (create_node db label properties).2.nodes v = some ⟨label, properties⟩ ∧
    (create_node db label properties).2.nodes.filter (fun p => p.1 = v) =
      [(v, ⟨label, properties⟩)] ∧
    pyKeys (create_node db label properties).2.nodes = pyKeys db.nodes := by
  refine ⟨by simp [create_node, hid], ?_, ?_, ?_⟩
  · simp [create_node, hid, pyGet_pySet_self]
  · simp only [create_node, hid, Option.getD_some]
    exact pySet_filter_single db.nodes v ⟨label, properties⟩ hnd hmem
  · simp only [create_node, hid, Option.getD_some]
    exact pyKeys_pySet_of_mem db.nodes v ⟨label, properties⟩ hmem

/-- Witness for C6 at a concrete store: re-creating id `A` replaces the old
node and its properties wholesale. -/
theorem C6_witness :
    pyGet [("id", PVal.s "A"), ("y", PVal.s "2")] "id" = some (PVal.s "A") ∧
    PVal.s "A" ∈ pyKeys sampleStore.nodes ∧
    ((create_node sampleStore "NewLabel" [("id", PVal.s "A"), ("y", PVal.s "2")]).1 =
        PVal.s "A" ∧
      pyGet (create_node sampleStore "NewLabel"
          [("id", PVal.s "A"), ("y", PVal.s "2")]).2.nodes (PVal.s "A") =
        some ⟨"NewLabel", [("id", PVal.s "A"), ("y", PVal.s "2")]⟩ ∧
      (create_node sampleStore "NewLabel"
          [("id", PVal.s "A"), ("y", PVal.s "2")]).2.nodes.filter
          (fun p => p.1 = PVal.s "A") =
        [(PVal.s "A", ⟨"NewLabel", [("id", PVal.s "A"), ("y", PVal.s "2")]⟩)] ∧
      pyKeys (create_node sampleStore "NewLabel"
          [("id", PVal.s "A"), ("y", PVal.s "2")]).2.nodes =
        pyKeys sampleStore.nodes) :=
  ⟨by decide, by decide,
   C6_create_node_overwrite sampleStore "NewLabel"
     [("id", PVal.s "A"), ("y", PVal.s "2")] (PVal.s "A")
     (by decide) (by decide) (by decide)⟩

/-! ### Claim theorems: the provenance tracer's not-found result -/

/-- C8: a trace of an id absent from the node map yields the one-key error
dict, whose key list differs from the key list of every trace record a
found product yields — including the empty-but-found trace. -/
theorem C8_trace_not_found
    (db : GraphDatabase) (pid : PVal) (h : pyGet db.nodes pid = none) :
    trace_supply_chain db pid =
      .error ("Product " ++ pvalStr pid ++ " not found") ∧
    ∀ db' pid' t, trace_supply_chain db' pid' = .trace t →
      pyKeysOfResult (trace_supply_chain db pid) ≠
        pyKeysOfResult (trace_supply_chain db' pid') := by
  have he : trace_supply_chain db pid =
      .error ("Product " ++ pvalStr pid ++ " not found") := by
    simp [trace_supply_chain, h]
  refine ⟨he, ?_⟩
  intro db' pid' t ht
  rw [he, ht]
  simp [pyKeysOfResult]

/-- Witness for C8: tracing the missing id `Q` in a store that also holds
real products. -/
theorem C8_witness :
    pyGet twoFactoryStore.nodes (PVal.s "Q") = none ∧
    (trace_supply_chain twoFactoryStore (PVal.s "Q") =
      .error ("Product " ++ pvalStr (PVal.s "Q") ++ " not found") ∧
    ∀ db' pid' t, trace_supply_chain db' pid' = .trace t →
      pyKeysOfResult (trace_supply_chain twoFactoryStore (PVal.s "Q")) ≠
        pyKeysOfResult (trace_supply_chain db' pid')) :=
  ⟨by decide, C8_trace_not_found twoFactoryStore (PVal.s "Q") (by decide)⟩

/-! ### Claim theorems: `get_all_nodes` record shapes -/

/-- C10: with a (truthy) label argument the returned records carry no
`label` key unless a node duplicated one into its own properties, while
without a label every record carries a `label` key. -/
theorem C10_get_all_nodes_label_key
    (db : GraphDatabase) (l : String) (hl : l ≠ "")
    (hno : ∀ p ∈ db.nodes, pyGet p.2.properties "label" = none) :
    (∀ r ∈ get_all_nodes db (some l), pyGet r "label" = none) ∧
    (∀ r ∈ get_all_nodes db none, pyGet r "label" ≠ none) := by
  constructor
  · intro r hr
    simp only [get_all_nodes, if_neg hl, List.mem_map] at hr
    obtain ⟨p, hp, rfl⟩ := hr
    have hp' : p ∈ db.nodes := List.mem_of_mem_filter hp
    rw [pyGet_eq_none_iff]
    intro hmem
    rw [idRecord, mem_pyKeys_pyMerge] at hmem
    rcases hmem with hmem | hmem
    · simp [pyKeys] at hmem
    · exact absurd ((pyGet_eq_none_iff _ _).mp (hno p hp')) (by simpa using hmem)
  · intro r hr
    simp only [get_all_nodes, allNodesRecords, List.mem_map] at hr
    obtain ⟨p, _, rfl⟩ := hr
    intro hnone
    rw [pyGet_eq_none_iff, mem_pyKeys_pyMerge] at hnone
    exact hnone (Or.inl (by simp [pyKeys]))

/-- Witness for C10 at a concrete store whose nodes do not duplicate the
label into their properties. -/
theorem C10_witness :
    ("Thing" ≠ "") ∧
    (∀ p ∈ sampleStore.nodes, pyGet p.2.properties "label" = none) ∧
    ((∀ r ∈ get_all_nodes sampleStore (some "Thing"), pyGet r "label" = none) ∧
      (∀ r ∈ get_all_nodes sampleStore none, pyGet r "label" ≠ none)) :=
  ⟨by decide, by decide,
   C10_get_all_nodes_label_key sampleStore "Thing" (by decide) (by decide)⟩

/-! ### Claim theorems: the query engine -/

theorem foldl_append_toList {α β : Type} (f : α → Option β) (l : List α)
    (init : List β) :
    l.foldl (fun acc x => acc ++ (f x).toList) init = init ++ l.filterMap f := by
  induction l generalizing init with
  | nil => simp
  | cons x xs ih =>
      cases h : f x <;>
        simp [List.foldl_cons, h, ih, List.filterMap_cons, List.append_assoc]

theorem filter_map_eq_filterMap {α β : Type} (q : α → Prop) [DecidablePred q]
    (f : α → β) (l : List α) :
    (l.filter (fun a => q a)).map f =
      l.filterMap (fun a => if q a then some (f a) else none) := by
  induction l with
  | nil => rfl
  | cons a as ih =>
      by_cases h : q a <;> simp [List.filter_cons, List.filterMap_cons, h, ih]

theorem filter_map_filter {α β : Type} (q : α → Bool) (c : β → Bool)
    (f : α → β) (l : List α) :
    ((l.filter q).map f).filter c =
      l.filterMap (fun a => if q a && c (f a) then some (f a) else none) := by
  induction l with
  | nil => rfl
  | cons a as ih =>
      cases hq : q a
      · simp [List.filter_cons, List.filterMap_cons, hq, ih]
      · cases hc : c (f a) <;>
          simp [List.filter_cons, List.filterMap_cons, hq, hc, ih]

/-- C4: a two-node relationship query produces exactly one row per
relationship of the stated type whose resolved source and target carry the
two pattern labels; the inline filter texts `p1` and `p2` of the node
patterns do not occur on the right-hand side — they are never applied. -/
theorem C4_two_node_query_rows
    (db : GraphDatabase) (v1 l1 p1 v2 l2 p2 rt : String) :
    dispatch_match db [(v1, l1, p1), (v2, l2, p2)] [rt] =
      db.relationships.filterMap (relRowOf db v1 l1 v2 l2 rt) := by
  show matchRel db v1 l1 v2 l2 rt = _
  unfold matchRel
  rw [foldl_append_toList]
  simp

/-- C5: a single-node query produces exactly one row per node whose label
equals the pattern label and whose flattened record agrees, under exact
equality, with every parsed inline filter at the filter's key. -/
theorem C5_single_node_query_rows
    (db : GraphDatabase) (var label props : String) :
    dispatch_match db [(var, label, props)] [] =
      db.nodes.filterMap (fun p =>
        if p.2.label = label ∧
            (parse_properties props.data).all (fun kv =>
              pyGet (idRecord p.1 p.2.properties) kv.1 == some (PVal.s kv.2)) = true
          then some [(var, RVal.dict (idRecord p.1 p.2.properties))]
          else none) := by
  show matchSingle db var label props = _
  unfold matchSingle
  by_cases h : props = ""
  · subst h
    have hpp : parse_properties "".data = [] := by decide
    rw [if_pos rfl, hpp]
    simp only [List.all_nil, and_true]
    exact filter_map_eq_filterMap _ _ _
  · rw [if_neg h]
    rw [filter_map_filter (fun p : PVal × Node => p.2.label = label)
      (fun row : Row => (parse_properties props.data).all (fun kv =>
        match pyGet row var with
        | some (RVal.dict m) => pyGet m kv.1 == some (PVal.s kv.2)
        | _ => false))
      (fun p : PVal × Node => [(var, RVal.dict (idRecord p.1 p.2.properties))])]
    congr 1
    funext p
    by_cases hl : p.2.label = label
    · have hrow : pyGet [(var, RVal.dict (idRecord p.1 p.2.properties))] var =
          some (RVal.dict (idRecord p.1 p.2.properties)) := by simp [pyGet]
      simp only [hrow]
      rw [hl]
      exact if_congr (by simp) rfl rfl
    · simp [hl]

/-- C3 (amended): input that matches neither supported MATCH shape and is
not CREATE- or RETURN-prefixed yields the empty list; the function is
total, so no input raises. -/
theorem C3_unrecognized_query_empty
    (db : GraphDatabase) (q : String)
    (h1 : singleNodeShape q = false) (h2 : relShape q = false)
    (h3 : "CREATE".data.isPrefixOf (pyUpper (pyStrip q.data)) = false)
    (h4 : "RETURN".data.isPrefixOf (pyUpper (pyStrip q.data)) = false) :
    execute_cypher db q = [] := by
  unfold execute_cypher
  by_cases hm : "MATCH".data.isPrefixOf (pyUpper (pyStrip q.data))
  · rw [if_pos hm]
    unfold singleNodeShape at h1
    unfold relShape at h2
    rw [hm] at h1 h2
    simp only [Bool.true_and] at h1 h2
    unfold execute_match
    cases hn : findNodes (pyStrip q.data) with
    | nil => rfl
    | cons a ns =>
        obtain ⟨av, al, ap⟩ := a
        rw [hn] at h1 h2
        cases ns with
        | nil =>
            simp only [List.length_cons, List.length_nil] at h1
            cases hr : findRels (pyStrip q.data) with
            | nil => rw [hr] at h1; simp at h1
            | cons r rs => rfl
        | cons b ns' =>
            obtain ⟨bv, bl, bp⟩ := b
            cases hr : findRels (pyStrip q.data) with
            | nil => rfl
            | cons r rs =>
                rw [hr] at h2
                simp at h2
  · rw [if_neg hm]
    simp [h3, h4]

/-- Witness for the amended C3: the malformed query `bananas` satisfies
every hypothesis and yields the empty list. -/
theorem C3_witness :
    singleNodeShape "bananas" = false ∧ relShape "bananas" = false ∧
    "CREATE".data.isPrefixOf (pyUpper (pyStrip "bananas".data)) = false ∧
    "RETURN".data.isPrefixOf (pyUpper (pyStrip "bananas".data)) = false ∧
    execute_cypher emptyDB "bananas" = [] :=
  ⟨by decide, by decide, by decide, by decide,
   C3_unrecognized_query_empty emptyDB "bananas"
     (by decide) (by decide) (by decide) (by decide)⟩

/-- Counterexample to C3 as stated: `CREATE (x:Foo)` matches neither
supported shape, yet `execute_cypher` returns the non-empty stub row
`[\x7b'result': 'Created'\x7d]`, not the empty list. -/
theorem C3_counterexample :
    singleNodeShape "CREATE (x:Foo)" = false ∧
    relShape "CREATE (x:Foo)" = false ∧
    execute_cypher emptyDB "CREATE (x:Foo)" = [[("result", RVal.s "Created")]] := by
  decide

/-! ### Claim theorems: the provenance tracer's factory and suppliers -/

theorem someOr {α : Type} (a : α) (o : Option α) : (some a).or o = some a := rfl

theorem getLast?_cons_or {α : Type} (x : α) (xs : List α) :
    (x :: xs).getLast? = xs.getLast?.or (some x) := by
  induction xs generalizing x with
  | nil => rfl
  | cons y ys ih =>
      rw [List.getLast?_cons_cons, ih y, Option.or_assoc]
      rfl

theorem factory_fold_general (db : GraphDatabase) (pid : PVal) :
    ∀ (l : List Relationship) (st : Option PropMap × List PropMap),
      l.foldl
        (fun st rel =>
          if rel.toId = pid ∧ rel.type = "MANUFACTURES" then
            match pyGet db.nodes rel.fromId with
            | some factory_node =>
                (some factory_node.properties, st.2 ++ certsOf db rel.fromId)
            | none => st
          else st) st =
      (((l.filter (fun rel => rel.toId == pid && rel.type == "MANUFACTURES")).filterMap
          (fun rel => (pyGet db.nodes rel.fromId).map Node.properties)).getLast?.or st.1,
       st.2 ++ (l.filter (fun rel => rel.toId == pid && rel.type == "MANUFACTURES")).flatMap
          (fun rel => if (pyGet db.nodes rel.fromId).isSome
            then certsOf db rel.fromId else [])) := by
  intro l
  induction l with
  | nil => intro st; simp
  | cons rel rest ih =>
      intro st
      by_cases hg : rel.toId = pid ∧ rel.type = "MANUFACTURES"
      · have hgb : (rel.toId == pid && rel.type == "MANUFACTURES") = true := by
          simp [hg.1, hg.2]
        rw [List.foldl_cons, if_pos hg]
        cases hn : pyGet db.nodes rel.fromId with
        | none =>
            rw [ih st]
            simp [List.filter_cons, hgb, List.filterMap_cons, List.flatMap_cons, hn]
        | some fn =>
            rw [ih (some fn.properties, st.2 ++ certsOf db rel.fromId)]
            simp [List.filter_cons, hgb, List.filterMap_cons, List.flatMap_cons,
              hn, getLast?_cons_or, Option.or_assoc, someOr,
              List.append_assoc, Prod.ext_iff]
      · have hgb : (rel.toId == pid && rel.type == "MANUFACTURES") = false := by
          rcases (Decidable.not_and_iff_or_not ..).mp hg with hh | hh <;> simp [hh]
        rw [List.foldl_cons, if_neg hg, ih st]
        simp [List.filter_cons, hgb]

theorem factoryStep_eq (db : GraphDatabase) (pid : PVal) :
    factoryStep db pid = (lastFactoryProps db pid, allCerts db pid) := by
  unfold factoryStep lastFactoryProps allCerts manufRels
  rw [factory_fold_general db pid db.relationships (none, [])]
  simp

/-- C2 (amended): for a product present in the store, the trace's factory
is the properties of the source of the *last* MANUFACTURES relationship
targeting it whose source resolves to a node, and the certification list
accumulates the certifications of *every* such source, in store order;
when no MANUFACTURES relationship targets the product, the trace is the
empty-but-found record with factory null and all three lists empty. -/
theorem C2_amended_trace_factory
    (db : GraphDatabase) (pid : PVal) (product_node : Node)
    (h : pyGet db.nodes pid = some product_node) :
    ∃ t, trace_supply_chain db pid = .trace t ∧
      t.product = product_node.properties ∧
      t.factory = lastFactoryProps db pid ∧
      t.certifications = allCerts db pid ∧
      (manufRels db pid = [] →
        t = ⟨product_node.properties, none, [], [], []⟩) := by
  have key : trace_supply_chain db pid =
      .trace ⟨product_node.properties, (factoryStep db pid).1,
        materialsOf db pid (factoryStep db pid).1,
        dedupSuppliers ((materialsOf db pid (factoryStep db pid).1).flatMap
          MaterialEntry.suppliers),
        (factoryStep db pid).2⟩ := by
    simp [trace_supply_chain, h]
  refine ⟨_, key, rfl, ?_, ?_, ?_⟩
  · simp [factoryStep_eq]
  · simp [factoryStep_eq]
  · intro hman
    have hf : (factoryStep db pid).1 = none := by
      simp [factoryStep_eq, lastFactoryProps, hman]
    have hc : (factoryStep db pid).2 = [] := by
      simp [factoryStep_eq, allCerts, hman]
    have hm : materialsOf db pid (factoryStep db pid).1 = [] := by
      rw [hf]; rfl
    simp only [hf, hc, hm]
    rfl

/-- Counterexample to C2 as stated: with two factories both MANUFACTURING
product P, the code resolves the *last* one (Factory Two), not the first
one (Factory One) the claim names. -/
theorem C2_counterexample :
    trace_supply_chain twoFactoryStore (PVal.s "P") =
      .trace ⟨[("id", PVal.s "P"), ("name", PVal.s "Bag")],
              some [("id", PVal.s "F2"), ("name", PVal.s "Factory Two")],
              [], [], []⟩ ∧
    trace_supply_chain twoFactoryStore (PVal.s "P") ≠
      .trace ⟨[("id", PVal.s "P"), ("name", PVal.s "Bag")],
              some [("id", PVal.s "F1"), ("name", PVal.s "Factory One")],
              [], [], []⟩ := by
  decide

/-- Witness for the amended C2 at the two-factory store. -/
theorem C2_witness :
    pyGet twoFactoryStore.nodes (PVal.s "P") =
      some ⟨"Product", [("id", PVal.s "P"), ("name", PVal.s "Bag")]⟩ ∧
    (∃ t, trace_supply_chain twoFactoryStore (PVal.s "P") = .trace t ∧
      t.product = [("id", PVal.s "P"), ("name", PVal.s "Bag")] ∧
      t.factory = lastFactoryProps twoFactoryStore (PVal.s "P") ∧
      t.certifications = allCerts twoFactoryStore (PVal.s "P") ∧
      (manufRels twoFactoryStore (PVal.s "P") = [] →
        t = ⟨[("id", PVal.s "P"), ("name", PVal.s "Bag")], none, [], [], []⟩)) :=
  ⟨by decide,
   C2_amended_trace_factory twoFactoryStore (PVal.s "P")
     ⟨"Product", [("id", PVal.s "P"), ("name", PVal.s "Bag")]⟩ (by decide)⟩

theorem keepFirstById_nil : keepFirstById [] = [] := by rw [keepFirstById]

theorem keepFirstById_cons (s : PropMap) (rest : List PropMap) :
    keepFirstById (s :: rest) =
      s :: keepFirstById (rest.filter (fun s2 => !(pyGet s2 "id" == pyGet s "id"))) := by
  rw [keepFirstById]

theorem dedupSuppliersAux_eq_keepFirst :
    ∀ (l : List PropMap) (seen : List (Option PVal)),
      dedupSuppliersAux seen l =
        keepFirstById (l.filter (fun s => pyGet s "id" ∉ seen)) := by
  intro l
  induction l with
  | nil => intro seen; simp [dedupSuppliersAux, keepFirstById_nil]
  | cons s rest ih =>
      intro seen
      by_cases hs : pyGet s "id" ∈ seen
      · have step : dedupSuppliersAux seen (s :: rest) = dedupSuppliersAux seen rest := by
          simp [dedupSuppliersAux, hs]
        have hfil : (s :: rest).filter (fun x => pyGet x "id" ∉ seen) =
            rest.filter (fun x => pyGet x "id" ∉ seen) := by
          simp [List.filter_cons, hs]
        rw [step, hfil, ih seen]
      · have step : dedupSuppliersAux seen (s :: rest) =
            s :: dedupSuppliersAux (pyGet s "id" :: seen) rest := by
          simp [dedupSuppliersAux, hs]
        have hfil : (s :: rest).filter (fun x => pyGet x "id" ∉ seen) =
            s :: rest.filter (fun x => pyGet x "id" ∉ seen) := by
          simp [List.filter_cons, hs]
        have hfun : (fun x : PropMap => decide (pyGet x "id" ∉ pyGet s "id" :: seen)) =
            fun a => !(pyGet a "id" == pyGet s "id") && decide (pyGet a "id" ∉ seen) := by
          funext x
          by_cases hx : pyGet x "id" = pyGet s "id" <;> simp [hx, List.mem_cons]
        rw [step, hfil, keepFirstById_cons, ih, List.filter_filter, hfun]

theorem dedupSuppliers_eq_keepFirst (l : List PropMap) :
    dedupSuppliers l = keepFirstById l := by
  unfold dedupSuppliers
  rw [dedupSuppliersAux_eq_keepFirst l []]
  congr 1
  have he : (fun s : PropMap => decide (pyGet s "id" ∉ ([] : List (Option PVal)))) =
      fun _ => true := by funext s; simp
  rw [he, List.filter_true]

theorem keepFirstById_subset :
    ∀ (n : Nat) (l : List PropMap), l.length ≤ n → ∀ x ∈ keepFirstById l, x ∈ l := by
  intro n
  induction n with
  | zero =>
      intro l hl x hx
      have hnil : l = [] := List.eq_nil_of_length_eq_zero (Nat.le_zero.mp hl)
      subst hnil
      rw [keepFirstById_nil] at hx
      exact absurd hx (List.not_mem_nil x)
  | succ n ih =>
      intro l hl x hx
      cases l with
      | nil =>
          rw [keepFirstById_nil] at hx
          exact absurd hx (List.not_mem_nil x)
      | cons s rest =>
          rw [keepFirstById_cons] at hx
          rcases List.mem_cons.mp hx with h | h
          · subst h; exact List.mem_cons_self x rest
          · have hlen : (rest.filter
                (fun s2 => !(pyGet s2 "id" == pyGet s "id"))).length ≤ n :=
              le_trans (List.length_filter_le _ _)
                (Nat.succ_le_succ_iff.mp (by simpa using hl))
            exact List.mem_cons_of_mem s
              (List.mem_of_mem_filter (ih _ hlen x h))

theorem keepFirstById_ids_nodup :
    ∀ (n : Nat) (l : List PropMap), l.length ≤ n →
      ((keepFirstById l).map (fun s => pyGet s "id")).Nodup := by
  intro n
  induction n with
  | zero =>
      intro l hl
      have hnil : l = [] := List.eq_nil_of_length_eq_zero (Nat.le_zero.mp hl)
      subst hnil
      simp [keepFirstById_nil]
  | succ n ih =>
      intro l hl
      cases l with
      | nil => simp [keepFirstById_nil]
      | cons s rest =>
          rw [keepFirstById_cons, List.map_cons, List.nodup_cons]
          have hlen : (rest.filter
              (fun s2 => !(pyGet s2 "id" == pyGet s "id"))).length ≤ n :=
            le_trans (List.length_filter_le _ _)
              (Nat.succ_le_succ_iff.mp (by simpa using hl))
          constructor
          · intro hmem
            rcases List.mem_map.mp hmem with ⟨y, hy, hid⟩
            have hyf := keepFirstById_subset n _ hlen y hy
            have hpred := List.of_mem_filter hyf
            simp [hid] at hpred
          · exact ih _ hlen

/-- C7: the trace's aggregate supplier list keeps only the first occurrence
of each supplier id (first-seen order) from the concatenation of the
per-material supplier lists, so its ids are pairwise distinct. -/
theorem C7_supplier_aggregate
    (db : GraphDatabase) (pid : PVal) (t : Trace)
    (h : trace_supply_chain db pid = .trace t) :
    t.suppliers = keepFirstById (t.materials.flatMap MaterialEntry.suppliers) ∧
    (t.suppliers.map (fun s => pyGet s "id")).Nodup := by
  cases hg : pyGet db.nodes pid with
  | none =>
      rw [trace_supply_chain, hg] at h
      exact absurd h (by simp)
  | some pn =>
      have key : trace_supply_chain db pid =
          .trace ⟨pn.properties, (factoryStep db pid).1,
            materialsOf db pid (factoryStep db pid).1,
            dedupSuppliers ((materialsOf db pid (factoryStep db pid).1).flatMap
              MaterialEntry.suppliers),
            (factoryStep db pid).2⟩ := by
        simp [trace_supply_chain, hg]
      rw [key] at h
      injection h with h2
      subst h2
      dsimp only
      constructor
      · rw [dedupSuppliers_eq_keepFirst]
      · rw [dedupSuppliers_eq_keepFirst]
        exact keepFirstById_ids_nodup _ _ (le_refl _)

/-- Witness for C7: the spec's fixture — two certifications, two materials,
one supplier providing both — yields exactly one aggregate supplier while
both per-material lists keep it. -/
theorem C7_witness :
    trace_supply_chain traceFixtureStore (PVal.s "P2") =
      .trace ⟨[("id", PVal.s "P2"), ("name", PVal.s "Coat")],
              some [("id", PVal.s "F"), ("name", PVal.s "Atelier")],
              [⟨[("id", PVal.s "M1"), ("name", PVal.s "Wool")],
                 [[("id", PVal.s "S"), ("name", PVal.s "Farm")]]⟩,
               ⟨[("id", PVal.s "M2"), ("name", PVal.s "Silk")],
                 [[("id", PVal.s "S"), ("name", PVal.s "Farm")]]⟩],
              [[("id", PVal.s "S"), ("name", PVal.s "Farm")]],
              [[("id", PVal.s "CA")], [("id", PVal.s "CB")]]⟩ ∧
    ((Trace.mk [("id", PVal.s "P2"), ("name", PVal.s "Coat")]
        (some [("id", PVal.s "F"), ("name", PVal.s "Atelier")])
        [⟨[("id", PVal.s "M1"), ("name", PVal.s "Wool")],
           [[("id", PVal.s "S"), ("name", PVal.s "Farm")]]⟩,
         ⟨[("id", PVal.s "M2"), ("name", PVal.s "Silk")],
           [[("id", PVal.s "S"), ("name", PVal.s "Farm")]]⟩]
        [[("id", PVal.s "S"), ("name", PVal.s "Farm")]]
        [[("id", PVal.s "CA")], [("id", PVal.s "CB")]]).suppliers =
      keepFirstById ((Trace.mk [("id", PVal.s "P2"), ("name", PVal.s "Coat")]
        (some [("id", PVal.s "F"), ("name", PVal.s "Atelier")])
        [⟨[("id", PVal.s "M1"), ("name", PVal.s "Wool")],
           [[("id", PVal.s "S"), ("name", PVal.s "Farm")]]⟩,
         ⟨[("id", PVal.s "M2"), ("name", PVal.s "Silk")],
           [[("id", PVal.s "S"), ("name", PVal.s "Farm")]]⟩]
        [[("id", PVal.s "S"), ("name", PVal.s "Farm")]]
        [[("id", PVal.s "CA")], [("id", PVal.s "CB")]]).materials.flatMap
          MaterialEntry.suppliers)) ∧
    (((Trace.mk [("id", PVal.s "P2"), ("name", PVal.s "Coat")]
        (some [("id", PVal.s "F"), ("name", PVal.s "Atelier")])
        [⟨[("id", PVal.s "M1"), ("name", PVal.s "Wool")],
           [[("id", PVal.s "S"), ("name", PVal.s "Farm")]]⟩,
         ⟨[("id", PVal.s "M2"), ("name", PVal.s "Silk")],
           [[("id", PVal.s "S"), ("name", PVal.s "Farm")]]⟩]
        [[("id", PVal.s "S"), ("name", PVal.s "Farm")]]
        [[("id", PVal.s "CA")], [("id", PVal.s "CB")]]).suppliers.map
          (fun s => pyGet s "id")).Nodup) :=
  ⟨by decide,
   C7_supplier_aggregate traceFixtureStore (PVal.s "P2")
     (Trace.mk [("id", PVal.s "P2"), ("name", PVal.s "Coat")]
        (some [("id", PVal.s "F"), ("name", PVal.s "Atelier")])
        [⟨[("id", PVal.s "M1"), ("name", PVal.s "Wool")],
           [[("id", PVal.s "S"), ("name", PVal.s "Farm")]]⟩,
         ⟨[("id", PVal.s "M2"), ("name", PVal.s "Silk")],
           [[("id", PVal.s "S"), ("name", PVal.s "Farm")]]⟩]
        [[("id", PVal.s "S"), ("name", PVal.s "Farm")]]
        [[("id", PVal.s "CA")], [("id", PVal.s "CB")]]) (by decide)⟩

/-! ### Claim theorems: the JSON snapshot round trip -/

theorem pvalOfJson_jsonOfPVal (v : PVal) : pvalOfJson (jsonOfPVal v) = some v := by
  cases v <;> rfl

theorem mapMOpt_props (l : PropMap) :
    mapMOpt (fun kv => (pvalOfJson kv.2).map (fun v => (kv.1, v)))
      (l.map (fun kv => (kv.1, jsonOfPVal kv.2))) = some l := by
  induction l with
  | nil => rfl
  | cons kv rest ih =>
      obtain ⟨k, v⟩ := kv
      simp [mapMOpt, pvalOfJson_jsonOfPVal, ih]

theorem propsOfJson_jsonOfProps (m : PropMap) :
    propsOfJson (jsonOfProps m) = some m := by
  simp [jsonOfProps, propsOfJson, mapMOpt_props]

theorem nodeOfJson_jsonOfNode (n : Node) : nodeOfJson (jsonOfNode n) = some n := by
  simp [nodeOfJson, jsonOfNode, pyGet, propsOfJson_jsonOfProps]

theorem relOfJson_jsonOfRel (r : Relationship) :
    relOfJson (jsonOfRel r) = some r := by
  simp [relOfJson, jsonOfRel, pyGet, propsOfJson_jsonOfProps, pvalOfJson_jsonOfPVal]

theorem mapMOpt_rels (l : List Relationship) :
    mapMOpt relOfJson (l.map jsonOfRel) = some l := by
  induction l with
  | nil => rfl
  | cons r rest ih => simp [mapMOpt, relOfJson_jsonOfRel, ih]

theorem mapMOpt_nodes (l : List (PVal × Node))
    (hk : ∀ k ∈ pyKeys l, PVal.s (jsonKey k) = k) :
    mapMOpt (fun kv => (nodeOfJson kv.2).map (fun n => (PVal.s kv.1, n)))
      (l.map (fun p => (jsonKey p.1, jsonOfNode p.2))) = some l := by
  induction l with
  | nil => rfl
  | cons p rest ih =>
      obtain ⟨k, n⟩ := p
      have hk0 : PVal.s (jsonKey k) = k :=
        hk k (by rw [pyKeys_cons]; exact List.mem_cons_self _ _)
      have hkr : ∀ k' ∈ pyKeys rest, PVal.s (jsonKey k') = k' := fun k' h' =>
        hk k' (by rw [pyKeys_cons]; exact List.mem_cons_of_mem _ h')
      simp [mapMOpt, nodeOfJson_jsonOfNode, ih hkr, hk0]

/-- C9 (amended): exporting and importing into a fresh store reproduces the
node map and relationship list exactly, provided every node id is a
string — numeric ids are coerced to string keys by `json.dump` and do not
survive (see the counterexample). -/
theorem C9_export_import_roundtrip
    (db : GraphDatabase)
    (hk : ∀ k ∈ pyKeys db.nodes, PVal.s (jsonKey k) = k) :
    import_from_json emptyDB (export_to_json db) =
      some { emptyDB with nodes := db.nodes, relationships := db.relationships } := by
  unfold export_to_json import_from_json
  simp [pyGet, mapMOpt_nodes db.nodes hk, mapMOpt_rels db.relationships]

/-- Counterexample to C9 as stated: a store whose node carries the numeric
explicit id `5` — a permitted number-valued property — round-trips to a
node map keyed by the string `"5"`, which is not set-equal to the
original node map. -/
theorem C9_counterexample :
    import_from_json emptyDB (export_to_json numericIdStore) =
      some ⟨[(PVal.s "5", ⟨"X", [("id", PVal.i 5)]⟩)], [], 0⟩ ∧
    ¬ ([((PVal.s "5" : PVal), (⟨"X", [("id", PVal.i 5)]⟩ : Node))].Perm
        numericIdStore.nodes) := by
  decide

/-- Witness for the amended C9 at a store whose node ids are all strings. -/
theorem C9_witness :
    (∀ k ∈ pyKeys twoFactoryStore.nodes, PVal.s (jsonKey k) = k) ∧
    import_from_json emptyDB (export_to_json twoFactoryStore) =
      some { emptyDB with nodes := twoFactoryStore.nodes, relationships := twoFactoryStore.relationships } :=
  ⟨by decide, C9_export_import_roundtrip twoFactoryStore (by decide)⟩

end SupplyChain
